import Mathlib

/-!
Verification of the panel-to-video compositing engine of this repository
(`backend/app/services/video_service.py`, class `VideoService`), against its
natural-language specification.

Shallow-embedding conventions:
* Python floats are modelled by exact rationals `ℚ`; Python `int(x)`
  (truncation toward zero) is `pyInt`; Python `//` on ints is `Int.fdiv`.
* A PIL image is a pair of dimensions plus a total pixel function
  `Int → Int → Pixel`; only coordinates inside the bounds are meaningful.
* The LANCZOS resampling kernel, font rasterization (`textbbox`,
  `multiline_text`) and `textwrap.fill` are deterministic pure functions
  whose exact pixel output no claim depends on; they are modelled by
  concrete deterministic stand-ins: `resize` samples source pixels, a
  `Font` carries metric and coverage-mask functions supplied by the
  environment, and `textwrapFill` is a greedy word wrap.
* External effects are modelled by an explicit environment `Env`
  (network fetch results, image cache contents, the optional bubble asset,
  the loaded font, the ffmpeg outcome) and by an `FS` value listing the
  files that exist after a run; temporary names produced by
  `tempfile.mkdtemp` / `NamedTemporaryFile` come from a `Names` record.
-/

/-- An RGBA pixel value, one `Nat` per channel. -/
abbrev Pixel := Nat × Nat × Nat × Nat

/-- A raster image: dimensions plus a total pixel function. -/
structure Img where
  width : Nat
  height : Nat
  pix : Int → Int → Pixel

/-- Python `int(q)` on a rational: truncation toward zero. -/
def pyInt (q : ℚ) : Int := if 0 ≤ q then ⌊q⌋ else ⌈q⌉

/-- A loaded font: text measurement (`draw.textbbox` width/height) and a
rasterization coverage mask for text drawn with its layout origin at `(0,0)`
(the `anchor="mm"` placement offset is applied by the caller). -/
structure Font where
  metricsW : String → Nat
  metricsH : String → Nat
  mask : String → Int → Int → Bool

/-- Model of `VideoConfig` from `backend/app/models/video_models.py`. -/
structure VideoConfig where
  width : Nat := 1080
  height : Nat := 1920
  base_duration_ms : Nat := 250
  bubble_duration_ms : Nat := 2500
  final_pause_ms : Nat := 250
  transition_duration_ms : Nat := 1250
  fps : Nat := 30
  font_size : Nat := 47
  bubble_padding : Nat := 30
  bubble_bg_opacity : ℚ := 35/100
  bubble_border_width : Nat := 5
  bubble_border_color : String := "#4a4a4a"
  bubble_text_color : String := "#000000"
  crf : Nat := 18

/-- Model of `BubbleData`: text plus percentage position (the pydantic model has no
width/height fields, so `getattr(bubble, 'width', None)` is always `None`
in `generate_video`). -/
structure Bubble where
  text : String
  x : ℚ
  y : ℚ
deriving DecidableEq

/-- Model of `VideoPanelData`. -/
structure Panel where
  panel_number : Int
  image_url : String
  bubbles : List Bubble
deriving DecidableEq

/-- The deterministic external environment of one build. -/
structure Env where
  dataUrl : String → Option Img
  fetch : String → Option Img
  cacheFile : String → Option Img
  localFile : String → Option Img
  bubbleAsset : Option Img
  font : Font
  ffmpegOk : Bool
  ffmpegStderr : String

/-- Fresh names handed out by `tempfile.mkdtemp` (the temp workspace) and
`tempfile.NamedTemporaryFile` (the surviving artifact when no output path
was supplied). -/
structure Names where
  tempDir : String
  finalName : String

/-- The files existing on disk after a run. -/
structure FS where
  files : List String
deriving DecidableEq

/-- Failures of the image-resolution branches of `generate_video`: the
base64 decode path, `download_image_sync` (httpx), the cache-directory
lookup (`FileNotFoundError(f"Image not found: {local_path}")`) and the
final `ValueError(f"Cannot load image from: {image_url[:100]}")`.
No constructor carries a panel number, mirroring the source. -/
inductive RErr where
  | decodeFailed (url : String)
  | httpError (url : String)
  | fileNotFound (localPath : String)
  | cannotLoad (urlPrefix : String)
deriving DecidableEq

/-- Failures surfaced by `generate_video`. -/
inductive VErr where
  | resolve (e : RErr)
  | noFrames
  | ffmpegFailed (stderrTail : String)
deriving DecidableEq

/-- Source-over alpha blending of `src` onto `dst`, the operation behind
`Image.alpha_composite` (integer approximation of the Porter-Duff
"over" operator). -/
def blendPix (src dst : Pixel) : Pixel :=
  let sa := src.2.2.2
  let da := dst.2.2.2
  let outA := sa + da * (255 - sa) / 255
  if outA = 0 then (0, 0, 0, 0)
  else
    ( (src.1 * sa + dst.1 * da * (255 - sa) / 255) / outA
    , (src.2.1 * sa + dst.2.1 * da * (255 - sa) / 255) / outA
    , (src.2.2.1 * sa + dst.2.2.1 * da * (255 - sa) / 255) / outA
    , outA )

/-- Model of `img.convert("RGB")`: drop the alpha band (alpha becomes opaque). -/
def convRGB (img : Img) : Img :=
  { img with pix := fun x y => let p := img.pix x y; (p.1, p.2.1, p.2.2.1, 255) }

/-- Model of `img.resize((w, h), LANCZOS)`: dimensions from the source call; the
resampling kernel is abstracted by point sampling, since no claim depends
on the kernel's pixel arithmetic. -/
def resize (img : Img) (w h : Nat) : Img :=
  { width := w
    height := h
    pix := fun x y =>
      if w = 0 ∨ h = 0 then (0, 0, 0, 0)
      else img.pix (x * img.width / w) (y * img.height / h) }

/-- Model of `VideoService._scale_to_cover`: `scale = max(target_w / img.width,
target_h / img.height)`, then resize to `(int(w*scale), int(h*scale))`. -/
def scaleToCover (cfg : VideoConfig) (img : Img) : Img :=
  let scale : ℚ := max ((cfg.width : ℚ) / (img.width : ℚ)) ((cfg.height : ℚ) / (img.height : ℚ))
  let newW := (pyInt ((img.width : ℚ) * scale)).toNat
  let newH := (pyInt ((img.height : ℚ) * scale)).toNat
  resize img newW newH

/-- Model of `VideoService._crop_center`: symmetric crop box
`(left, top, left+target_w, top+target_h)` with `left = (w - target_w) // 2`
(Python floor division, possibly negative). PIL's `crop` zero-fills any part
of the box lying outside the source image and always returns an image of
the box's size. -/
def cropCenter (cfg : VideoConfig) (img : Img) : Img :=
  let left : Int := ((img.width : Int) - (cfg.width : Int)).fdiv 2
  let top : Int := ((img.height : Int) - (cfg.height : Int)).fdiv 2
  { width := cfg.width
    height := cfg.height
    pix := fun x y =>
      if 0 ≤ x + left ∧ x + left < (img.width : Int) ∧ 0 ≤ y + top ∧ y + top < (img.height : Int)
      then img.pix (x + left) (y + top)
      else (0, 0, 0, 0) }

/-- Model of `dst.paste(src, (x0, y0))` on RGB images: overwrite the overlapping
region, keep `dst` elsewhere; the result keeps `dst`'s size. -/
def paste (dst src : Img) (x0 y0 : Int) : Img :=
  { dst with pix := fun x y =>
      if x0 ≤ x ∧ x < x0 + (src.width : Int) ∧ y0 ≤ y ∧ y < y0 + (src.height : Int)
      then src.pix (x - x0) (y - y0)
      else dst.pix x y }

/-- Model of `dst.alpha_composite(src, (x0, y0))`: alpha-blend the overlapping
region, keep `dst` elsewhere. -/
def alphaComposite (dst src : Img) (x0 y0 : Int) : Img :=
  { dst with pix := fun x y =>
      if x0 ≤ x ∧ x < x0 + (src.width : Int) ∧ y0 ≤ y ∧ y < y0 + (src.height : Int)
      then blendPix (src.pix (x - x0) (y - y0)) (dst.pix x y)
      else dst.pix x y }

/-- The opacity pass on the bubble asset:
`a.point(lambda p: int(p * opacity))` applied to the alpha band when
`opacity < 1.0`. -/
def applyOpacity (img : Img) (opacity : ℚ) : Img :=
  if opacity < 1 then
    { img with pix := fun x y =>
        let p := img.pix x y
        (p.1, p.2.1, p.2.2.1, (pyInt ((p.2.2.2 : ℚ) * opacity)).toNat) }
  else img

/-- A solid-color constant image (`Image.new("RGB", (w, h), (0,0,0))` is
`mkImg w h (0,0,0,255)`). -/
def mkImg (w h : Nat) (c : Pixel) : Img :=
  { width := w, height := h, pix := fun _ _ => c }

/-- One hex digit's value (0 for non-hex characters, which the source
would reject with an exception; configs in scope use valid colors). -/
def hexVal (c : Char) : Nat :=
  if c = '0' then 0 else if c = '1' then 1 else if c = '2' then 2
  else if c = '3' then 3 else if c = '4' then 4 else if c = '5' then 5
  else if c = '6' then 6 else if c = '7' then 7 else if c = '8' then 8
  else if c = '9' then 9 else if c = 'a' then 10 else if c = 'b' then 11
  else if c = 'c' then 12 else if c = 'd' then 13 else if c = 'e' then 14
  else if c = 'f' then 15 else if c = 'A' then 10 else if c = 'B' then 11
  else if c = 'C' then 12 else if c = 'D' then 13 else if c = 'E' then 14
  else if c = 'F' then 15 else 0

/-- Model of `VideoService._hex_to_rgb`: strip the leading `#`, read three pairs of
hex digits. -/
def hexToRgb (s : String) : Nat × Nat × Nat :=
  let t := (s.dropWhile (· = '#')).toList
  ( hexVal (t.getD 0 '0') * 16 + hexVal (t.getD 1 '0')
  , hexVal (t.getD 2 '0') * 16 + hexVal (t.getD 3 '0')
  , hexVal (t.getD 4 '0') * 16 + hexVal (t.getD 5 '0') )

/-- Greedy word wrap joining words into lines of at most `w` characters,
modelling `textwrap.fill text w` (deterministic; no claim depends on the
exact break positions). -/
def textwrapFill (s : String) (w : Nat) : String :=
  let step := fun (acc : String × String) (word : String) =>
    let line := acc.2
    if line = "" then (acc.1, word)
    else if line.length + 1 + word.length ≤ w then (acc.1, line ++ " " ++ word)
    else (if acc.1 = "" then (line, word) else (acc.1 ++ "\n" ++ line, word))
  let r := (s.splitOn " ").foldl step ("", "")
  if r.1 = "" then r.2 else r.1 ++ "\n" ++ r.2

/-- Membership in the rounded rectangle `[x0, x1] × [y0, y1]` with corner
radius `r` (the shape drawn by `draw.rounded_rectangle`). -/
def inRoundedRect (x0 y0 x1 y1 r : ℚ) (x y : ℚ) : Bool :=
  decide (x0 ≤ x ∧ x ≤ x1 ∧ y0 ≤ y ∧ y ≤ y1) &&
  ( decide ((x0 + r ≤ x ∨ x ≤ x1 - r) ∧ (y0 + r ≤ y ∨ y ≤ y1 - r)) ||
    decide ((x - (x0 + r))^2 + (y - (y0 + r))^2 ≤ r^2) ||
    decide ((x - (x1 - r))^2 + (y - (y0 + r))^2 ≤ r^2) ||
    decide ((x - (x0 + r))^2 + (y - (y1 - r))^2 ≤ r^2) ||
    decide ((x - (x1 - r))^2 + (y - (y1 - r))^2 ≤ r^2) )

/-- Model of `draw.rounded_rectangle([(bx, by), (bx+bw, by+bh)], radius, fill,
outline, width)`: fill pixels take the RGBA fill value, a border band of
the outline width takes the border color (rasterization approximated at
pixel centers). -/
def roundedRect (img : Img) (bx by0 bw bh radius : ℚ)
    (fill : Pixel) (border : Nat × Nat × Nat) (borderW : Nat) : Img :=
  { img with pix := fun x y =>
      if inRoundedRect bx by0 (bx + bw) (by0 + bh) radius (x : ℚ) (y : ℚ) then
        if inRoundedRect (bx + borderW) (by0 + borderW) (bx + bw - borderW) (by0 + bh - borderW) radius (x : ℚ) (y : ℚ) then fill
        else (border.1, border.2.1, border.2.2, 255)
      else img.pix x y }

/-- Model of `draw.multiline_text((cx, cy), s, font, fill, anchor="mm")`: pixels
covered by the font's coverage mask for `s` centered at `(cx, cy)` take the
text color, everything else is unchanged. -/
def drawText (img : Img) (font : Font) (s : String) (cx cy : Int)
    (color : Nat × Nat × Nat) : Img :=
  { img with pix := fun x y =>
      if font.mask s (x - cx) (y - cy) then (color.1, color.2.1, color.2.2, 255)
      else img.pix x y }

/-- The bubble box width `(w_pct / 100) * img.width` computed by
`render_bubble` when explicit percentages are given. -/
def bubbleBoxW (img : Img) (wPct : ℚ) : ℚ := (wPct / 100) * (img.width : ℚ)

/-- The bubble box height `(h_pct / 100) * img.height`. -/
def bubbleBoxH (img : Img) (hPct : ℚ) : ℚ := (hPct / 100) * (img.height : ℚ)

/-- The wrapped text for the explicit-box branch:
`textwrap.fill(text, width=max(5, int(bw / (font_size * 0.5))))`. -/
def wrappedTextFor (cfg : VideoConfig) (text : String) (bw : ℚ) : String :=
  textwrapFill text (max 5 (pyInt (bw / ((cfg.font_size : ℚ) * (1/2)))).toNat)

/-- The quantity `abs_x = (x_pct / 100) * img.width`, the horizontal top-left anchor
(`bx = abs_x`, the clamping lines being commented out in the source). -/
def bubbleOriginX (img : Img) (xPct : ℚ) : ℚ := (xPct / 100) * (img.width : ℚ)

/-- The quantity `abs_y = (y_pct / 100) * img.height`, the vertical top-left anchor. -/
def bubbleOriginY (img : Img) (yPct : ℚ) : ℚ := (yPct / 100) * (img.height : ℚ)

/-- Model of `VideoService.render_bubble`, translated line by line: copy the canvas
(pure value semantics make the copy implicit), compute the bubble box
(explicit percentages, or measured single-line text clamped to 85% of the
canvas width and padded), resolve `x_pct`/`y_pct` against the canvas's
current dimensions as a top-left anchor with the clamping lines commented
out in the source, composite the bubble asset if the environment has one
(resized to the box, with the opacity pass) or draw the rounded-rectangle
fallback, then draw the (possibly wrapped) text centered in the box. -/
def renderBubble (env : Env) (font : Font) (cfg : VideoConfig) (img : Img)
    (text : String) (xPct yPct : ℚ) (wPct hPct : Option ℚ) : Img :=
  let boxed : ℚ × ℚ × String :=
    match wPct, hPct with
    | some wp, some hp =>
      let bw := bubbleBoxW img wp
      let bh := bubbleBoxH img hp
      (bw, bh, wrappedTextFor cfg text bw)
    | _, _ =>
      let textW : ℚ := (font.metricsW text : ℚ)
      let textH : ℚ := (font.metricsH text : ℚ)
      let maxW : ℚ := ((pyInt ((img.width : ℚ) * (85/100))) : ℚ)
      let textW := if textW > maxW then maxW else textW
      let padding : ℚ := (cfg.bubble_padding : ℚ)
      (textW + padding * 2, textH + padding * 2, text)
  let bw := boxed.1
  let bh := boxed.2.1
  let wrapped := boxed.2.2
  let absX := bubbleOriginX img xPct
  let absY := bubbleOriginY img yPct
  let bx := absX
  let by0 := absY
  let afterBg :=
    match env.bubbleAsset with
    | some asset =>
      let asset := resize asset (pyInt bw).toNat (pyInt bh).toNat
      let asset := applyOpacity asset cfg.bubble_bg_opacity
      alphaComposite img asset (pyInt bx) (pyInt by0)
    | none =>
      roundedRect img bx by0 bw bh 20
        (255, 255, 255, (pyInt (cfg.bubble_bg_opacity * 255)).toNat)
        (hexToRgb cfg.bubble_border_color) cfg.bubble_border_width
  drawText afterBg font wrapped (pyInt (bx + bw / 2)) (pyInt (by0 + bh / 2))
    (hexToRgb cfg.bubble_text_color)

/-- One call of `render_bubble` through the service's lazy font cache
(`self._font`): an empty cache loads the environment's font and stays
populated afterwards. -/
def renderBubbleCall (env : Env) (cache : Option Font) (cfg : VideoConfig)
    (img : Img) (text : String) (xPct yPct : ℚ) (wPct hPct : Option ℚ) :
    Img × Option Font :=
  let font := cache.getD env.font
  (renderBubble env font cfg img text xPct yPct wPct hPct, some font)

/-- The easing curve in `generate_video`'s transition loop:
`0.5 - 0.5 * (1 - progress * 2) ** 2` for `progress < 0.5`, else
`0.5 + 0.5 * (1 - (1 - progress) * 2) ** 2`. -/
def easedCode (p : ℚ) : ℚ :=
  if p < 1/2 then 1/2 - 1/2 * (1 - p * 2)^2
  else 1/2 + 1/2 * (1 - (1 - p) * 2)^2

/-- One scroll-transition frame for frame index `t` of `T`:
`progress = t / T`, the current panel's base frame pasted at vertical
offset `-int(height * eased)` (guarded by `> -height`), the next panel's
base frame pasted at `int(height * (1 - eased))` (guarded by `< height`),
both onto a black `width × height` RGB canvas. -/
def transitionFrame (cfg : VideoConfig) (finalBase nextFinal : Img) (t T : Nat) : Img :=
  let progress : ℚ := (t : ℚ) / (T : ℚ)
  let eased := easedCode progress
  let currentYOffset : Int := -(pyInt ((cfg.height : ℚ) * eased))
  let nextYOffset : Int := pyInt ((cfg.height : ℚ) * (1 - eased))
  let blank := mkImg cfg.width cfg.height (0, 0, 0, 255)
  let step1 :=
    if currentYOffset > -(cfg.height : Int)
    then paste blank (convRGB finalBase) 0 currentYOffset
    else blank
  if nextYOffset < (cfg.height : Int)
  then paste step1 (convRGB nextFinal) 0 nextYOffset
  else step1

/-- Frame count of one phase: `int(duration_ms / 1000 * fps)` (exact
rational arithmetic truncates to `ms * fps / 1000` on naturals). -/
def phaseCount (ms fps : Nat) : Nat := ms * fps / 1000

/-- Character-list matching of a leading pattern (Python `startswith`,
written structurally so the kernel can evaluate it). -/
def leadMatch : List Char → List Char → Bool
  | [], _ => true
  | _ :: _, [] => false
  | c :: cs, d :: ds => c = d && leadMatch cs ds

/-- Python `s.startswith(lead)`. -/
def pyStartsWith (s lead : String) : Bool := leadMatch lead.data s.data

/-- Python `s[:n]`. -/
def pyTake (s : String) (n : Nat) : String := String.mk (s.data.take n)

/-- Python `s[-n:]` (the diagnostic tail). -/
def pyTakeRight (s : String) (n : Nat) : String := String.mk ((s.data.reverse.take n).reverse)

/-- Python `s.split('/')[-1]`. -/
def pyLastComponent (s : String) : String :=
  String.mk (s.data.foldl (fun acc c => if c = '/' then [] else acc ++ [c]) [])

/-- The image-resolution branching at the top of `generate_video`'s panel
loop: base64 data URLs, http(s) URLs via `download_image_sync`, the
`/api/assets/cache/images/` rewrite to the local cache directory, direct
file paths, and the final `ValueError`. -/
def resolveImage (env : Env) (url : String) : Except RErr Img :=
  if pyStartsWith url "data:image" then
    match env.dataUrl url with
    | some i => .ok i
    | none => .error (.decodeFailed url)
  else if pyStartsWith url "http://" || pyStartsWith url "https://" then
    match env.fetch url with
    | some i => .ok i
    | none => .error (.httpError url)
  else if pyStartsWith url "/api/assets/cache/images/" then
    let filename := pyLastComponent url
    let localPath := "cache/images/" ++ filename
    match env.cacheFile filename with
    | some i => .ok i
    | none => .error (.fileNotFound localPath)
  else
    match env.localFile url with
    | some i => .ok i
    | none => .error (.cannotLoad (pyTake url 100))

/-- The frame emitted for one bubble: `render_bubble` on a copy of the
scaled (uncropped) canvas, then `_crop_center`, then `convert("RGB")`. -/
def bubbleFrameOf (env : Env) (cfg : VideoConfig) (scaled : Img) (b : Bubble) : Img :=
  convRGB (cropCenter cfg (renderBubble env env.font cfg scaled b.text b.x b.y none none))

/-- All frames of one panel's base, bubble and final-pause phases, in
emission order (the frame written `base_frames` times, one block of
`bubble_frames` copies per bubble in array order, then `final_frames`
copies of the base frame again). -/
def panelFrames (env : Env) (cfg : VideoConfig) (p : Panel) (img : Img) : List Img :=
  let baseScaled := scaleToCover cfg img
  let finalBase := cropCenter cfg baseScaled
  List.replicate (phaseCount cfg.base_duration_ms cfg.fps) (convRGB finalBase)
  ++ (p.bubbles.map (fun b =>
        List.replicate (phaseCount cfg.bubble_duration_ms cfg.fps)
          (bubbleFrameOf env cfg baseScaled b))).join
  ++ List.replicate (phaseCount cfg.final_pause_ms cfg.fps) (convRGB finalBase)

/-- The scroll-transition block after a panel: the next panel's image is
loaded again inside a `try`; any load failure (or cache miss, which hits a
`continue`) skips the transition entirely, otherwise
`int(transition_duration_ms / 1000 * fps)` transition frames are
emitted. -/
def transitionBlock (env : Env) (cfg : VideoConfig) (finalBase : Img) (nextUrl : String) : List Img :=
  match resolveImage env nextUrl with
  | .error _ => []
  | .ok nimg =>
    let nextFinal := cropCenter cfg (scaleToCover cfg nimg)
    let T := phaseCount cfg.transition_duration_ms cfg.fps
    (List.range T).map (fun t => transitionFrame cfg finalBase nextFinal t T)

/-- The scroll-transition block emitted after a panel: none after the
last panel, otherwise the transition toward the next panel's image. -/
def transAfter (env : Env) (cfg : VideoConfig) (img : Img) : List Panel → List Img
  | [] => []
  | q :: _ => transitionBlock env cfg (cropCenter cfg (scaleToCover cfg img)) q.image_url

/-- The frame-production loop of `generate_video` (continued): for each
panel resolve the image — a failure raises and aborts the whole loop
immediately, which `Except.bind` models — emit the panel's phases, then
the transition block (`transAfter`), then the remaining panels' frames.
The `frame_NNNNNN.png` zero-padding of the on-disk names is dropped in
the model (the padding affects neither counts nor pixels). -/
def buildFrames (env : Env) (cfg : VideoConfig) : List Panel → Except RErr (List Img)
  | [] => .ok []
  | p :: rest =>
    (resolveImage env p.image_url).bind fun img =>
      (buildFrames env cfg rest).bind fun tail =>
        .ok (panelFrames env cfg p img ++ transAfter env cfg img rest ++ tail)

/-- Model of `VideoService.generate_video`: make the temp workspace, run the frame
loop (writing `frame_NNNNNN.png` files into the workspace), fail if no
frame was produced, run ffmpeg (writing `output.mp4` into the workspace
when no output path was supplied), copy the artifact to a fresh
non-temporary file when it lives inside the workspace, and remove the
workspace on every exit path (the `finally` block). The first component is
the set of files existing after the run; the second is the returned output
path together with the produced frames, or the raised error. -/
def generateVideo (env : Env) (names : Names) (cfg : VideoConfig)
    (panels : List Panel) (outputPath : Option String) :
    FS × Except VErr (String × List Img) :=
  let tempDir := names.tempDir
  match buildFrames env cfg panels with
  | .error e => (⟨[]⟩, .error (.resolve e))
  | .ok frames =>
    if frames.length = 0 then (⟨[]⟩, .error .noFrames)
    else
      let outPath := outputPath.getD (tempDir ++ "/output.mp4")
      if env.ffmpegOk then
        let frameFiles := (List.range frames.length).map
          (fun i => tempDir ++ "/frame_" ++ toString i ++ ".png")
        let written := frameFiles ++ [outPath]
        let copied :=
          if pyStartsWith outPath tempDir
          then (written ++ [names.finalName], names.finalName)
          else (written, outPath)
        (⟨copied.1.filter (fun f => ! pyStartsWith f tempDir)⟩, .ok (copied.2, frames))
      else (⟨[]⟩, .error (.ffmpegFailed (pyTakeRight env.ffmpegStderr 1000)))

/-- The error component of a `generate_video` result. -/
def errOf (r : Except VErr (String × List Img)) : Option VErr :=
  match r with
  | .error e => some e
  | .ok _ => none

/-- The returned output path of a successful `generate_video` result. -/
def okPathOf (r : Except VErr (String × List Img)) : Option String :=
  match r with
  | .error _ => none
  | .ok pr => some pr.1

/-- The produced frame sequence of a successful `generate_video` result. -/
def framesOf (r : Except VErr (String × List Img)) : Option (List Img) :=
  match r with
  | .error _ => none
  | .ok pr => some pr.2

/-- The frame count of a successful frame-production run. -/
def frameCountOf (r : Except RErr (List Img)) : Option Nat :=
  match r with
  | .error _ => none
  | .ok l => some l.length

/-- Closed-form per-panel frame total as the code computes it (truncating
durations): base phase + one bubble phase per bubble + final pause. -/
def panelPhaseTotal (cfg : VideoConfig) (p : Panel) : Nat :=
  phaseCount cfg.base_duration_ms cfg.fps
  + p.bubbles.length * phaseCount cfg.bubble_duration_ms cfg.fps
  + phaseCount cfg.final_pause_ms cfg.fps

/-- Closed-form total frame count as the code computes it: the sum of the
per-panel phase totals plus one transition block per panel except the
last. -/
def codeTotal (cfg : VideoConfig) (panels : List Panel) : Nat :=
  (panels.map (panelPhaseTotal cfg)).sum
  + (panels.length - 1) * phaseCount cfg.transition_duration_ms cfg.fps

/-- Modelled from the spec's words (for comparison with the code): the
per-phase frame count `round(duration_ms / 1000 * fps)`, rounding to the
nearest integer (ties upward; no claim hinges on the tie convention). -/
def specPhaseCount (ms fps : Nat) : Nat := (ms * fps + 500) / 1000

/-- Modelled from the spec's words (for comparison with the code): the
claimed closed-form total with `round` in every phase. -/
def specTotal (cfg : VideoConfig) (panels : List Panel) : Nat :=
  (panels.map (fun p =>
    specPhaseCount cfg.base_duration_ms cfg.fps
    + p.bubbles.length * specPhaseCount cfg.bubble_duration_ms cfg.fps
    + specPhaseCount cfg.final_pause_ms cfg.fps)).sum
  + (panels.length - 1) * specPhaseCount cfg.transition_duration_ms cfg.fps

/-- Modelled from the spec's words (for comparison with the code): the
claimed symmetric ease-in-out curve, `2p²` for `p < 0.5` and
`1 - 2(1-p)²` otherwise. -/
def easedSpec (p : ℚ) : ℚ :=
  if p < 1/2 then 2 * p^2 else 1 - 2 * (1 - p)^2

/-- Modelled from the spec's words (for comparison with the code): the
scroll-transition frame built with the claimed easing curve, with the
offsets and pasting otherwise as the engine performs them. -/
def specTransitionFrame (cfg : VideoConfig) (finalBase nextFinal : Img) (t T : Nat) : Img :=
  let progress : ℚ := (t : ℚ) / (T : ℚ)
  let eased := easedSpec progress
  let currentYOffset : Int := -(pyInt ((cfg.height : ℚ) * eased))
  let nextYOffset : Int := pyInt ((cfg.height : ℚ) * (1 - eased))
  let blank := mkImg cfg.width cfg.height (0, 0, 0, 255)
  let step1 :=
    if currentYOffset > -(cfg.height : Int)
    then paste blank (convRGB finalBase) 0 currentYOffset
    else blank
  if nextYOffset < (cfg.height : Int)
  then paste step1 (convRGB nextFinal) 0 nextYOffset
  else step1

/-- Whether an image resolution succeeded. -/
def resOk (r : Except RErr Img) : Bool :=
  match r with
  | .ok _ => true
  | .error _ => false

/-- A heap of PIL image objects, for stating the aliasing behavior of
`render_bubble` (Python images are mutable heap objects; `img.copy()`
allocates, `ImageDraw`/`alpha_composite` mutate in place). -/
structure Store where
  mem : Nat → Img
  next : Nat

/-- Read a heap reference. -/
def Store.get (s : Store) (r : Nat) : Img := s.mem r

/-- Allocate a fresh reference holding `i`. -/
def Store.alloc (s : Store) (i : Img) : Store × Nat :=
  ({ mem := fun q => if q = s.next then i else s.mem q, next := s.next + 1 }, s.next)

/-- Overwrite the image held at a reference (in-place mutation). -/
def Store.set (s : Store) (r : Nat) (i : Img) : Store :=
  { s with mem := fun q => if q = r then i else s.mem q }

/-- Model of `render_bubble` at the heap level: `img = img.copy()` allocates a fresh
object holding the caller's pixels, and all subsequent draws
(`ImageDraw.Draw`, `alpha_composite`, `rounded_rectangle`,
`multiline_text`, modelled together by the pure `renderBubble`) mutate
only that fresh object, which is returned. -/
def renderBubbleStore (env : Env) (font : Font) (cfg : VideoConfig) (s : Store)
    (ref : Nat) (text : String) (xPct yPct : ℚ) (wPct hPct : Option ℚ) : Store × Nat :=
  let alloc := s.alloc (s.get ref)
  let s1 := alloc.1
  let c := alloc.2
  (s1.set c (renderBubble env font cfg (s1.get c) text xPct yPct wPct hPct), c)

/-- The default configuration (`VideoConfig()` on the singleton service). -/
def cfgDef : VideoConfig := {}

/-- A small concrete test image. -/
def imgW : Img := mkImg 2 3 (1, 2, 3, 255)

/-- A concrete deterministic font. -/
def fontW : Font := { metricsW := fun _ => 4, metricsH := fun _ => 2, mask := fun _ _ _ => false }

/-- A concrete environment: two local images exist, the network is down,
no bubble asset, ffmpeg succeeds. -/
def envGood : Env :=
  { dataUrl := fun _ => none
    fetch := fun _ => none
    cacheFile := fun _ => none
    localFile := fun s => if s = "a.png" ∨ s = "c.png" then some imgW else none
    bubbleAsset := none
    font := fontW
    ffmpegOk := true
    ffmpegStderr := "" }

/-- A concrete one-object heap. -/
def storeW : Store := { mem := fun _ => imgW, next := 1 }

/-- A 4×4 target configuration and a 1×1 source, for exercising the
out-of-bounds crop. -/
def cfg4 : VideoConfig := { width := 4, height := 4 }

/-- A 1×1 concrete image. -/
def img1 : Img := mkImg 1 1 (7, 7, 7, 255)

/-- A concrete bubble asset and environment carrying it. -/
def aW : Img := mkImg 4 4 (9, 9, 9, 128)

/-- Environment with a bubble asset present. -/
def envAsset : Env :=
  { dataUrl := fun _ => none
    fetch := fun _ => none
    cacheFile := fun _ => none
    localFile := fun _ => none
    bubbleAsset := some aW
    font := fontW
    ffmpegOk := true
    ffmpegStderr := "" }

/-- A 10×10 concrete canvas. -/
def img10 : Img := mkImg 10 10 (1, 2, 3, 255)

/-- A tiny configuration giving one base frame, one frame per bubble, no
final pause, and one transition frame. -/
def cfgW : VideoConfig :=
  { width := 2, height := 3, base_duration_ms := 1000, bubble_duration_ms := 1000
    final_pause_ms := 0, transition_duration_ms := 1000, fps := 1 }

/-- A one-bubble panel over a local file. -/
def panelW : Panel := ⟨1, "a.png", [⟨"hi", 10, 20⟩]⟩

/-- The configuration exhibiting the rounding divergence: at
`base_duration_ms = 251`, `fps = 30` the code truncates
`int(251/1000*30) = int(7.53) = 7` while the spec's closed form rounds to
`8`. -/
def cfgC1 : VideoConfig :=
  { base_duration_ms := 251, final_pause_ms := 0, transition_duration_ms := 0 }

/-- A bubble-free one-panel job over a local file. -/
def panelC1 : Panel := ⟨1, "a.png", []⟩

/-- The error component of one image resolution. -/
def resErrOf (r : Except RErr Img) : Option RErr :=
  match r with
  | .error e => some e
  | .ok _ => none

/-- Concrete workspace names (`mkdtemp` result and the surviving
artifact's name). -/
def namesW : Names := ⟨"video_gen_tmp", "webtoon_video_final.mp4"⟩

/-- The spec's own scenario: a 3-panel job whose second panel has an
unreachable remote reference. -/
def panelsW3 : List Panel :=
  [⟨1, "a.png", []⟩, ⟨2, "http://unreachable/p2.png", []⟩, ⟨3, "c.png", []⟩]

/-- A 1×8 configuration for exercising the scroll transition. -/
def cfg8 : VideoConfig := { width := 1, height := 8 }

/-- The "from" base frame (all-1 pixels). -/
def fbA : Img := mkImg 1 8 (1, 1, 1, 255)

/-- The "to" base frame (all-2 pixels). -/
def nfB : Img := mkImg 1 8 (2, 2, 2, 255)

/-- On nonnegative rationals Python truncation is the floor. -/
theorem pyInt_of_nonneg {q : ℚ} (h : 0 ≤ q) : pyInt q = ⌊q⌋ := if_pos h

/-- C7: `render_bubble` never mutates its input canvas: the returned
canvas is a freshly allocated object, after the call the caller's
reference holds pixel content identical to its content before the call,
and the fresh object holds the bubble composite of the input
(copy-on-write). -/
theorem render_bubble_copy_on_write (env : Env) (font : Font) (cfg : VideoConfig)
    (s : Store) (ref : Nat) (text : String) (xPct yPct : ℚ) (wPct hPct : Option ℚ)
    (href : ref < s.next) :
    (renderBubbleStore env font cfg s ref text xPct yPct wPct hPct).2 ≠ ref ∧
    (renderBubbleStore env font cfg s ref text xPct yPct wPct hPct).1.get ref = s.get ref ∧
    (renderBubbleStore env font cfg s ref text xPct yPct wPct hPct).1.get
        (renderBubbleStore env font cfg s ref text xPct yPct wPct hPct).2
      = renderBubble env font cfg (s.get ref) text xPct yPct wPct hPct := by
  have hne : ref ≠ s.next := Nat.ne_of_lt href
  refine ⟨fun h => hne h.symm, ?_, ?_⟩ <;>
    simp [renderBubbleStore, Store.alloc, Store.set, Store.get, hne]

/-- Witness for C7 at a concrete heap. -/
theorem render_bubble_copy_on_write_witness :
    (renderBubbleStore envGood fontW cfgDef storeW 0 "hi" 10 20 none none).2 ≠ 0 ∧
    (renderBubbleStore envGood fontW cfgDef storeW 0 "hi" 10 20 none none).1.get 0 = storeW.get 0 ∧
    (renderBubbleStore envGood fontW cfgDef storeW 0 "hi" 10 20 none none).1.get
        (renderBubbleStore envGood fontW cfgDef storeW 0 "hi" 10 20 none none).2
      = renderBubble envGood fontW cfgDef (storeW.get 0) "hi" 10 20 none none :=
  render_bubble_copy_on_write envGood fontW cfgDef storeW 0 "hi" 10 20 none none (by decide)

/-- C10: `_crop_center` is total and always returns an image of exactly
`(config.width, config.height)`; when the symmetric crop box extends
outside the input image (in particular for inputs strictly smaller than
the target) the out-of-bounds region is zero-filled rather than an error,
with no precondition on the input size. -/
theorem crop_center_total_zero_fill (cfg : VideoConfig) (img : Img) :
    (cropCenter cfg img).width = cfg.width ∧
    (cropCenter cfg img).height = cfg.height ∧
    ∀ x y : Int,
      (x + ((img.width : Int) - (cfg.width : Int)).fdiv 2 < 0 ∨
       (img.width : Int) ≤ x + ((img.width : Int) - (cfg.width : Int)).fdiv 2 ∨
       y + ((img.height : Int) - (cfg.height : Int)).fdiv 2 < 0 ∨
       (img.height : Int) ≤ y + ((img.height : Int) - (cfg.height : Int)).fdiv 2) →
      (cropCenter cfg img).pix x y = (0, 0, 0, 0) := by
  refine ⟨rfl, rfl, ?_⟩
  intro x y h
  have hcond : ¬ (0 ≤ x + ((img.width : Int) - (cfg.width : Int)).fdiv 2 ∧
      x + ((img.width : Int) - (cfg.width : Int)).fdiv 2 < (img.width : Int) ∧
      0 ≤ y + ((img.height : Int) - (cfg.height : Int)).fdiv 2 ∧
      y + ((img.height : Int) - (cfg.height : Int)).fdiv 2 < (img.height : Int)) := by
    generalize ((img.width : Int) - (cfg.width : Int)).fdiv 2 = L at h ⊢
    generalize ((img.height : Int) - (cfg.height : Int)).fdiv 2 = M at h ⊢
    rintro ⟨h1, h2, h3, h4⟩
    rcases h with h | h | h | h <;> omega
  simp [cropCenter, hcond]

/-- Witness for C10: cropping a 1×1 image to 4×4 yields exactly 4×4 with
a zero-filled pixel where the box lies outside the source. -/
theorem crop_center_total_zero_fill_witness :
    (cropCenter cfg4 img1).width = 4 ∧ (cropCenter cfg4 img1).height = 4 ∧
    (cropCenter cfg4 img1).pix 0 0 = (0, 0, 0, 0) := by
  obtain ⟨h1, h2, h3⟩ := crop_center_total_zero_fill cfg4 img1
  exact ⟨h1, h2, h3 0 0 (by decide)⟩

/-- C4: for every source image with nonzero width and height,
`crop_center(scale_to_cover(img, W, H), W, H)` returns an image of exactly
`W × H`; moreover the uniformly scaled intermediate covers the target box
in both dimensions (the same scale factor `max(W/img_w, H/img_h)` is
applied on both axes by `_scale_to_cover`). -/
theorem scale_then_crop_exact (cfg : VideoConfig) (img : Img)
    (hw : 0 < img.width) (hh : 0 < img.height) :
    (cropCenter cfg (scaleToCover cfg img)).width = cfg.width ∧
    (cropCenter cfg (scaleToCover cfg img)).height = cfg.height ∧
    cfg.width ≤ (scaleToCover cfg img).width ∧
    cfg.height ≤ (scaleToCover cfg img).height := by
  have hw' : (0 : ℚ) < (img.width : ℚ) := by exact_mod_cast hw
  have hh' : (0 : ℚ) < (img.height : ℚ) := by exact_mod_cast hh
  refine ⟨rfl, rfl, ?_, ?_⟩
  · show cfg.width ≤ (pyInt ((img.width : ℚ) *
      max ((cfg.width : ℚ) / (img.width : ℚ)) ((cfg.height : ℚ) / (img.height : ℚ)))).toNat
    have h1 : (cfg.width : ℚ) ≤ (img.width : ℚ) *
        max ((cfg.width : ℚ) / (img.width : ℚ)) ((cfg.height : ℚ) / (img.height : ℚ)) := by
      rw [mul_comm]
      exact (div_le_iff hw').mp (le_max_left _ _)
    have h0 : (0 : ℚ) ≤ (img.width : ℚ) *
        max ((cfg.width : ℚ) / (img.width : ℚ)) ((cfg.height : ℚ) / (img.height : ℚ)) :=
      le_trans (by positivity) h1
    have hfl : (cfg.width : Int) ≤ ⌊(img.width : ℚ) *
        max ((cfg.width : ℚ) / (img.width : ℚ)) ((cfg.height : ℚ) / (img.height : ℚ))⌋ :=
      Int.le_floor.mpr (by exact_mod_cast h1)
    rw [pyInt_of_nonneg h0]
    omega
  · show cfg.height ≤ (pyInt ((img.height : ℚ) *
      max ((cfg.width : ℚ) / (img.width : ℚ)) ((cfg.height : ℚ) / (img.height : ℚ)))).toNat
    have h1 : (cfg.height : ℚ) ≤ (img.height : ℚ) *
        max ((cfg.width : ℚ) / (img.width : ℚ)) ((cfg.height : ℚ) / (img.height : ℚ)) := by
      rw [mul_comm]
      exact (div_le_iff hh').mp (le_max_right _ _)
    have h0 : (0 : ℚ) ≤ (img.height : ℚ) *
        max ((cfg.width : ℚ) / (img.width : ℚ)) ((cfg.height : ℚ) / (img.height : ℚ)) :=
      le_trans (by positivity) h1
    have hfl : (cfg.height : Int) ≤ ⌊(img.height : ℚ) *
        max ((cfg.width : ℚ) / (img.width : ℚ)) ((cfg.height : ℚ) / (img.height : ℚ))⌋ :=
      Int.le_floor.mpr (by exact_mod_cast h1)
    rw [pyInt_of_nonneg h0]
    omega

/-- Witness for C4 on a concrete 2×3 source under the default 1080×1920
configuration. -/
theorem scale_then_crop_exact_witness :
    (cropCenter cfgDef (scaleToCover cfgDef imgW)).width = 1080 ∧
    (cropCenter cfgDef (scaleToCover cfgDef imgW)).height = 1920 ∧
    1080 ≤ (scaleToCover cfgDef imgW).width ∧
    1920 ≤ (scaleToCover cfgDef imgW).height :=
  scale_then_crop_exact cfgDef imgW (by decide) (by decide)

/-- The resize keeps the requested width. -/
theorem resize_width (img : Img) (w h : Nat) : (resize img w h).width = w := rfl

/-- The resize keeps the requested height. -/
theorem resize_height (img : Img) (w h : Nat) : (resize img w h).height = h := rfl

/-- The opacity pass keeps the width. -/
theorem applyOpacity_width (img : Img) (o : ℚ) : (applyOpacity img o).width = img.width := by
  unfold applyOpacity
  split <;> rfl

/-- The opacity pass keeps the height. -/
theorem applyOpacity_height (img : Img) (o : ℚ) : (applyOpacity img o).height = img.height := by
  unfold applyOpacity
  split <;> rfl

/-- Conversion to RGB keeps the width. -/
theorem convRGB_width (img : Img) : (convRGB img).width = img.width := rfl

/-- Conversion to RGB keeps the height. -/
theorem convRGB_height (img : Img) : (convRGB img).height = img.height := rfl

/-- C5: `render_bubble` resolves `x_percent`/`y_percent` against the
canvas's *current* dimensions as a top-left anchor: the bubble box origin
is `(x_pct/100 * width, y_pct/100 * height)` (`bubbleOriginX/Y`), not a
center anchor, and the box is never clamped into the canvas bounds — the
statement holds for arbitrary pixel coordinates with no side condition
keeping the box inside the canvas, so a box extending partially or fully
outside is composited at exactly the same unclamped origin. Stated for
the bubble-asset background with explicit box percentages; the mask
hypothesis excludes text pixels. -/
theorem render_bubble_top_left_anchor (env : Env) (font : Font)
    (cfg : VideoConfig) (img : Img) (text : String) (x y w0 h0 : ℚ) (a : Img)
    (ha : env.bubbleAsset = some a) (px py : Int)
    (hmask : font.mask (wrappedTextFor cfg text (bubbleBoxW img w0))
        (px - pyInt (bubbleOriginX img x + bubbleBoxW img w0 / 2))
        (py - pyInt (bubbleOriginY img y + bubbleBoxH img h0 / 2)) = false) :
    ((pyInt (bubbleOriginX img x) ≤ px ∧
      px < pyInt (bubbleOriginX img x) + ((pyInt (bubbleBoxW img w0)).toNat : Int) ∧
      pyInt (bubbleOriginY img y) ≤ py ∧
      py < pyInt (bubbleOriginY img y) + ((pyInt (bubbleBoxH img h0)).toNat : Int)) →
      (renderBubble env font cfg img text x y (some w0) (some h0)).pix px py =
        blendPix
          ((applyOpacity
              (resize a (pyInt (bubbleBoxW img w0)).toNat (pyInt (bubbleBoxH img h0)).toNat)
              cfg.bubble_bg_opacity).pix
            (px - pyInt (bubbleOriginX img x)) (py - pyInt (bubbleOriginY img y)))
          (img.pix px py)) ∧
    (¬ (pyInt (bubbleOriginX img x) ≤ px ∧
        px < pyInt (bubbleOriginX img x) + ((pyInt (bubbleBoxW img w0)).toNat : Int) ∧
        pyInt (bubbleOriginY img y) ≤ py ∧
        py < pyInt (bubbleOriginY img y) + ((pyInt (bubbleBoxH img h0)).toNat : Int)) →
      (renderBubble env font cfg img text x y (some w0) (some h0)).pix px py = img.pix px py) := by
  have hstep : renderBubble env font cfg img text x y (some w0) (some h0) =
      drawText
        (alphaComposite img
          (applyOpacity
            (resize a (pyInt (bubbleBoxW img w0)).toNat (pyInt (bubbleBoxH img h0)).toNat)
            cfg.bubble_bg_opacity)
          (pyInt (bubbleOriginX img x)) (pyInt (bubbleOriginY img y)))
        font (wrappedTextFor cfg text (bubbleBoxW img w0))
        (pyInt (bubbleOriginX img x + bubbleBoxW img w0 / 2))
        (pyInt (bubbleOriginY img y + bubbleBoxH img h0 / 2))
        (hexToRgb cfg.bubble_text_color) := by
    unfold renderBubble
    rw [ha]
  rw [hstep]
  constructor
  · intro hin
    simp only [drawText, alphaComposite, hmask, Bool.false_eq_true, if_false,
      applyOpacity_width, applyOpacity_height, resize_width, resize_height]
    rw [if_pos hin]
  · intro hout
    simp only [drawText, alphaComposite, hmask, Bool.false_eq_true, if_false,
      applyOpacity_width, applyOpacity_height, resize_width, resize_height]
    rw [if_neg hout]

/-- Witness for C5: a bubble whose box extends past the right and bottom
canvas edges (origin at 95% of a 10×10 canvas with a 50%×50% box) is
composited unclamped; the pixel at `(11, 11)` — outside the canvas
proper — still receives the blended asset pixel. -/
theorem render_bubble_top_left_anchor_witness :
    (renderBubble envAsset fontW cfgDef img10 "hi" 95 95 (some 50) (some 50)).pix 11 11 =
      blendPix
        ((applyOpacity
            (resize aW (pyInt (bubbleBoxW img10 50)).toNat (pyInt (bubbleBoxH img10 50)).toNat)
            cfgDef.bubble_bg_opacity).pix
          (11 - pyInt (bubbleOriginX img10 95)) (11 - pyInt (bubbleOriginY img10 95)))
        (img10.pix 11 11) :=
  (render_bubble_top_left_anchor envAsset fontW cfgDef img10 "hi" 95 95 50 50 aW rfl
    11 11 rfl).1
    (by norm_num [pyInt, bubbleOriginX, bubbleOriginY, bubbleBoxW, bubbleBoxH, img10, mkImg])

/-- C6: every frame of a panel's base/bubble/final phases is either the
bubble-free base frame or derives from exactly one bubble of the panel —
rendered onto the scaled-but-not-yet-cropped canvas and then
center-cropped — so no two bubbles of the same panel are ever visible in
one timeline frame and earlier bubbles are absent from later bubble-phase
frames; the second conjunct pins the block order: base block, then one
block per bubble in array order, then the final pause. -/
theorem panel_frames_one_bubble (env : Env) (cfg : VideoConfig) (p : Panel) (img : Img) :
    (∀ f ∈ panelFrames env cfg p img,
      f = convRGB (cropCenter cfg (scaleToCover cfg img)) ∨
      ∃ b ∈ p.bubbles, f = bubbleFrameOf env cfg (scaleToCover cfg img) b) ∧
    panelFrames env cfg p img =
      List.replicate (phaseCount cfg.base_duration_ms cfg.fps)
          (convRGB (cropCenter cfg (scaleToCover cfg img)))
        ++ (p.bubbles.map fun b =>
              List.replicate (phaseCount cfg.bubble_duration_ms cfg.fps)
                (bubbleFrameOf env cfg (scaleToCover cfg img) b)).join
        ++ List.replicate (phaseCount cfg.final_pause_ms cfg.fps)
            (convRGB (cropCenter cfg (scaleToCover cfg img))) := by
  refine ⟨?_, rfl⟩
  intro f hf
  simp only [panelFrames, List.mem_append, List.mem_join, List.mem_map] at hf
  rcases hf with (hf | hf) | hf
  · exact Or.inl (List.eq_of_mem_replicate hf)
  · obtain ⟨l, ⟨b, hb, hl⟩, hfl⟩ := hf
    subst hl
    exact Or.inr ⟨b, hb, List.eq_of_mem_replicate hfl⟩
  · exact Or.inl (List.eq_of_mem_replicate hf)

/-- Witness for C6: the second frame of the concrete panel is produced
from exactly one of the panel's bubbles. -/
theorem panel_frames_one_bubble_witness :
    bubbleFrameOf envGood cfgW (scaleToCover cfgW imgW) ⟨"hi", 10, 20⟩ =
        convRGB (cropCenter cfgW (scaleToCover cfgW imgW)) ∨
      ∃ b ∈ panelW.bubbles,
        bubbleFrameOf envGood cfgW (scaleToCover cfgW imgW) ⟨"hi", 10, 20⟩ =
          bubbleFrameOf envGood cfgW (scaleToCover cfgW imgW) b :=
  (panel_frames_one_bubble envGood cfgW panelW imgW).1
    (bubbleFrameOf envGood cfgW (scaleToCover cfgW imgW) ⟨"hi", 10, 20⟩)
    (by
      simp only [panelFrames, List.mem_append]
      refine Or.inl (Or.inr ?_)
      simp only [panelW, List.mem_join, List.mem_map]
      refine ⟨_, ⟨⟨"hi", 10, 20⟩, by simp, rfl⟩, ?_⟩
      simp [List.mem_replicate]
      decide)

/-- The empty frame loop produces no frames. -/
theorem buildFrames_nil (env : Env) (cfg : VideoConfig) : buildFrames env cfg [] = .ok [] := rfl

/-- Unfolding equation of the frame loop on a nonempty panel list. -/
theorem buildFrames_cons (env : Env) (cfg : VideoConfig) (p : Panel) (rest : List Panel) :
    buildFrames env cfg (p :: rest) =
      (resolveImage env p.image_url).bind fun img =>
        (buildFrames env cfg rest).bind fun tail =>
          .ok (panelFrames env cfg p img ++ transAfter env cfg img rest ++ tail) := rfl

/-- Unfolding of `Except.bind` on a success. -/
theorem exbind_ok {α β : Type} (a : α) (f : α → Except RErr β) :
    (Except.ok a : Except RErr α).bind f = f a := rfl

/-- Unfolding of `Except.bind` on a failure. -/
theorem exbind_error {α β : Type} (e : RErr) (f : α → Except RErr β) :
    (Except.error e : Except RErr α).bind f = .error e := rfl

/-- Length of the joined per-bubble blocks: one block of `k` frames per
bubble. -/
theorem length_join_map_replicate (l : List Bubble) (k : Nat) (f : Bubble → Img) :
    ((l.map fun b => List.replicate k (f b)).join).length = l.length * k := by
  induction l with
  | nil => simp
  | cons b t ih => simp [ih, Nat.succ_mul, Nat.add_comm]

/-- A panel's own frame production matches the closed-form per-panel
total. -/
theorem panelFrames_length (env : Env) (cfg : VideoConfig) (p : Panel) (img : Img) :
    (panelFrames env cfg p img).length = panelPhaseTotal cfg p := by
  simp only [panelFrames, panelPhaseTotal, List.length_append, List.length_replicate,
    length_join_map_replicate]

/-- A transition block after a successfully re-resolved next image has
exactly the transition phase count. -/
theorem transitionBlock_length_ok (env : Env) (cfg : VideoConfig) (fb : Img)
    (url : String) (img : Img) (h : resolveImage env url = .ok img) :
    (transitionBlock env cfg fb url).length =
      phaseCount cfg.transition_duration_ms cfg.fps := by
  unfold transitionBlock
  rw [h]
  simp

/-- C1 (amended): on a build in which every panel's image resolves, the
total number of frames produced by the frame loop equals the closed-form
sum over panels of `int(base_duration_ms/1000*fps)` + (number of bubbles)
· `int(bubble_duration_ms/1000*fps)` + `int(final_pause_ms/1000*fps)`,
plus `int(transition_duration_ms/1000*fps)` per panel except the last —
with Python `int` truncation, not `round` — fully determined by the
VideoConfig and the panel/bubble counts. -/
theorem build_frames_closed_form (env : Env) (cfg : VideoConfig) :
    ∀ panels : List Panel,
      (panels.all fun p => resOk (resolveImage env p.image_url)) = true →
      frameCountOf (buildFrames env cfg panels) = some (codeTotal cfg panels) := by
  intro panels
  induction panels with
  | nil => intro _; simp [buildFrames_nil, frameCountOf, codeTotal]
  | cons p rest ih =>
    intro h
    rw [List.all_cons, Bool.and_eq_true] at h
    obtain ⟨hp, hrest⟩ := h
    obtain ⟨img, himg⟩ : ∃ i, resolveImage env p.image_url = .ok i := by
      cases hr : resolveImage env p.image_url with
      | ok i => exact ⟨i, rfl⟩
      | error e => rw [hr] at hp; simp [resOk] at hp
    specialize ih hrest
    obtain ⟨tail, htail, hlen⟩ :
        ∃ tail, buildFrames env cfg rest = .ok tail ∧ tail.length = codeTotal cfg rest := by
      cases hb : buildFrames env cfg rest with
      | error e => rw [hb] at ih; simp [frameCountOf] at ih
      | ok tail =>
        rw [hb] at ih
        simp only [frameCountOf, Option.some_inj] at ih
        exact ⟨tail, rfl, ih⟩
    rw [buildFrames_cons, himg, exbind_ok, htail, exbind_ok]
    simp only [frameCountOf, Option.some_inj, List.length_append, panelFrames_length, hlen]
    cases rest with
    | nil => simp [transAfter, codeTotal]
    | cons q rs =>
      have hq : resOk (resolveImage env q.image_url) = true := by
        rw [List.all_cons, Bool.and_eq_true] at hrest
        exact hrest.1
      obtain ⟨qimg, hqimg⟩ : ∃ i, resolveImage env q.image_url = .ok i := by
        cases hr : resolveImage env q.image_url with
        | ok i => exact ⟨i, rfl⟩
        | error e => rw [hr] at hq; simp [resOk] at hq
      have htb : (transAfter env cfg img (q :: rs)).length =
          phaseCount cfg.transition_duration_ms cfg.fps := by
        show (transitionBlock env cfg (cropCenter cfg (scaleToCover cfg img)) q.image_url).length = _
        exact transitionBlock_length_ok env cfg _ _ _ hqimg
      rw [htb]
      simp only [codeTotal, List.map_cons, List.sum_cons, List.length_cons,
        Nat.add_sub_cancel]
      rw [Nat.succ_mul]
      omega

/-- Witness for C1 (amended): a concrete two-panel build (one bubble on
the first panel) whose frame count matches the closed form. -/
theorem build_frames_closed_form_witness :
    frameCountOf (buildFrames envGood cfgW [panelW, ⟨2, "c.png", []⟩]) =
      some (codeTotal cfgW [panelW, ⟨2, "c.png", []⟩]) :=
  build_frames_closed_form envGood cfgW [panelW, ⟨2, "c.png", []⟩] (by decide)

/-- Counterexample to C1 as stated: the build produces 7 frames where the
spec's `round`-based closed form demands 8. -/
theorem frame_count_round_counterexample :
    frameCountOf (buildFrames envGood cfgC1 [panelC1]) = some 7 ∧
    specTotal cfgC1 [panelC1] = 8 ∧ (7 : Nat) ≠ 8 := by
  refine ⟨by decide, by decide, by decide⟩

/-- A resolution failure makes `generate_video` abort: the error
propagates out of the frame loop, the `finally` block removes the
workspace, and no file survives. -/
theorem generateVideo_error (env : Env) (names : Names) (cfg : VideoConfig)
    (panels : List Panel) (out : Option String) (e : RErr)
    (h : buildFrames env cfg panels = .error e) :
    generateVideo env names cfg panels out = (⟨[]⟩, .error (.resolve e)) := by
  unfold generateVideo
  rw [h]

/-- The frame loop surfaces the first failing panel's resolution error:
if the panels before index `k` resolve and panel `k` fails with `e`, the
whole loop returns `e`. -/
theorem buildFrames_first_error (env : Env) (cfg : VideoConfig) :
    ∀ (panels : List Panel) (k : Nat) (e : RErr),
      ((panels.take k).all fun p => resOk (resolveImage env p.image_url)) = true →
      k < panels.length →
      resErrOf (resolveImage env (panels.getD k ⟨0, "", []⟩).image_url) = some e →
      buildFrames env cfg panels = .error e := by
  intro panels
  induction panels with
  | nil => intro k e _ hk _; simp at hk
  | cons p rest ih =>
    intro k e hprev hk hfail
    cases k with
    | zero =>
      rw [List.getD_cons_zero] at hfail
      obtain ⟨he⟩ : ∃ _ : resolveImage env p.image_url = .error e, True := by
        cases hr : resolveImage env p.image_url with
        | ok i => rw [hr] at hfail; simp [resErrOf] at hfail
        | error e2 =>
          rw [hr] at hfail
          simp only [resErrOf, Option.some_inj] at hfail
          exact ⟨by rw [hfail], trivial⟩
      rw [buildFrames_cons, he, exbind_error]
    | succ k =>
      rw [List.take_succ_cons, List.all_cons, Bool.and_eq_true] at hprev
      obtain ⟨hp, hprev⟩ := hprev
      obtain ⟨img, himg⟩ : ∃ i, resolveImage env p.image_url = .ok i := by
        cases hr : resolveImage env p.image_url with
        | ok i => exact ⟨i, rfl⟩
        | error e2 => rw [hr] at hp; simp [resOk] at hp
      have htail := ih k e hprev (by simpa using hk) (by simpa using hfail)
      rw [buildFrames_cons, himg, exbind_ok, htail, exbind_error]

/-- C2 (amended): if any panel's image resolution fails (unreachable,
decode failure, or not found), the entire build aborts immediately — no
partial timeline and no file outside the removed temporary workspace —
and the resulting failure carries the root cause (the failing reference's
URL or path inside the raised error); it does *not* carry the offending
`panel_number`, which appears in no raised error. -/
theorem resolution_failure_aborts (env : Env) (names : Names) (cfg : VideoConfig)
    (panels : List Panel) (out : Option String) (k : Nat) (e : RErr)
    (hprev : ((panels.take k).all fun p => resOk (resolveImage env p.image_url)) = true)
    (hk : k < panels.length)
    (hfail : resErrOf (resolveImage env (panels.getD k ⟨0, "", []⟩).image_url) = some e) :
    errOf (generateVideo env names cfg panels out).2 = some (.resolve e) ∧
    (generateVideo env names cfg panels out).1.files = [] := by
  have hb := buildFrames_first_error env cfg panels k e hprev hk hfail
  rw [generateVideo_error env names cfg panels out e hb]
  exact ⟨rfl, rfl⟩

/-- Witness for C2 (amended): the 3-panel job with panel 2 unreachable
fails with the httpx error carrying that URL, and no file exists after
the run. -/
theorem resolution_failure_aborts_witness :
    errOf (generateVideo envGood namesW cfgW panelsW3 none).2 =
      some (.resolve (.httpError "http://unreachable/p2.png")) ∧
    (generateVideo envGood namesW cfgW panelsW3 none).1.files = [] :=
  resolution_failure_aborts envGood namesW cfgW panelsW3 none 1
    (.httpError "http://unreachable/p2.png") (by decide) (by decide) (by decide)

/-- Counterexample to C2 as stated: two one-panel jobs that differ only
in the offending panel's `panel_number` produce the *same* failure value,
so the failure cannot report the offending `panel_number` — the raised
errors (`FileNotFoundError`, `ValueError`, httpx errors) carry only the
reference, never the panel number. -/
theorem resolution_error_lacks_panel_number :
    errOf (generateVideo envGood namesW cfgDef
        [⟨2, "http://unreachable/p2.png", []⟩] none).2 =
      some (.resolve (.httpError "http://unreachable/p2.png")) ∧
    errOf (generateVideo envGood namesW cfgDef
        [⟨7, "http://unreachable/p2.png", []⟩] none).2 =
      some (.resolve (.httpError "http://unreachable/p2.png")) ∧
    (⟨2, "http://unreachable/p2.png", []⟩ : Panel).panel_number ≠
      (⟨7, "http://unreachable/p2.png", []⟩ : Panel).panel_number :=
  ⟨by decide, by decide, by decide⟩

/-- The code's easing curve stays nonnegative on `[0, 1]`. -/
theorem easedCode_nonneg {p : ℚ} (h0 : 0 ≤ p) (h1 : p ≤ 1) : 0 ≤ easedCode p := by
  unfold easedCode
  split_ifs with hc
  · nlinarith [mul_nonneg h0 (sub_nonneg.mpr h1)]
  · nlinarith [sq_nonneg (1 - (1 - p) * 2)]

/-- The code's easing curve stays below one on `[0, 1]`. -/
theorem easedCode_le_one {p : ℚ} (h0 : 0 ≤ p) (h1 : p ≤ 1) : easedCode p ≤ 1 := by
  unfold easedCode
  split_ifs with hc
  · nlinarith [sq_nonneg (1 - p * 2)]
  · nlinarith [mul_nonneg h0 (sub_nonneg.mpr h1)]

/-- Truncation of a nonnegative rational is nonnegative. -/
theorem pyInt_nonneg {q : ℚ} (h : 0 ≤ q) : 0 ≤ pyInt q := by
  rw [pyInt_of_nonneg h]
  exact Int.le_floor.mpr (by exact_mod_cast h)

/-- Truncation of a nonnegative rational below a natural bound stays
below the bound. -/
theorem pyInt_le_cast {q : ℚ} {n : Nat} (h0 : 0 ≤ q) (h : q ≤ (n : ℚ)) :
    pyInt q ≤ (n : Int) := by
  rw [pyInt_of_nonneg h0]
  calc ⌊q⌋ ≤ ⌊(n : ℚ)⌋ := Int.floor_mono h
  _ = (n : Int) := Int.floor_natCast n

/-- C3 (amended): for transition frame index `t` of `T ≥ 1` frames, the
scroll offsets come from normalized progress `p = t / T` with the code's
easing `eased = 1/2 − 1/2·(1−2p)²` for `p < 1/2` and
`1/2 + 1/2·(2p−1)²` otherwise (`easedCode`), *not* the spec's `2p²` /
`1 − 2(1−p)²`: the current panel's base canvas is offset upward by
`int(eased · height)` pixels, the next panel's base canvas enters from
below at offset `int((1 − eased) · height)`, both pasted onto a blank
target-sized canvas with the next panel pasted on top where they overlap
and black visible elsewhere. -/
theorem transition_frame_scroll_semantics (cfg : VideoConfig) (fb nf : Img) (t T : Nat)
    (ht : t < T)
    (hfw : fb.width = cfg.width) (hfh : fb.height = cfg.height)
    (hnw : nf.width = cfg.width) (hnh : nf.height = cfg.height) :
    (transitionFrame cfg fb nf t T).width = cfg.width ∧
    (transitionFrame cfg fb nf t T).height = cfg.height ∧
    ∀ x y : Int, 0 ≤ x → x < (cfg.width : Int) → 0 ≤ y → y < (cfg.height : Int) →
      (transitionFrame cfg fb nf t T).pix x y =
        (if pyInt ((cfg.height : ℚ) * (1 - easedCode ((t : ℚ) / (T : ℚ)))) ≤ y then
          (convRGB nf).pix x (y - pyInt ((cfg.height : ℚ) * (1 - easedCode ((t : ℚ) / (T : ℚ)))))
        else if y < (cfg.height : Int) - pyInt ((cfg.height : ℚ) * easedCode ((t : ℚ) / (T : ℚ))) then
          (convRGB fb).pix x (y + pyInt ((cfg.height : ℚ) * easedCode ((t : ℚ) / (T : ℚ))))
        else (0, 0, 0, 255)) := by
  have hT0 : 0 < T := Nat.lt_of_le_of_lt (Nat.zero_le t) ht
  have hp0 : (0 : ℚ) ≤ (t : ℚ) / (T : ℚ) := by positivity
  have hp1 : (t : ℚ) / (T : ℚ) ≤ 1 := by
    rw [div_le_one (by exact_mod_cast hT0)]
    exact_mod_cast Nat.le_of_lt ht
  have he0 : 0 ≤ easedCode ((t : ℚ) / (T : ℚ)) := easedCode_nonneg hp0 hp1
  have he1 : easedCode ((t : ℚ) / (T : ℚ)) ≤ 1 := easedCode_le_one hp0 hp1
  have hq0 : (0 : ℚ) ≤ (cfg.height : ℚ) * easedCode ((t : ℚ) / (T : ℚ)) :=
    mul_nonneg (Nat.cast_nonneg _) he0
  have hq1 : (cfg.height : ℚ) * easedCode ((t : ℚ) / (T : ℚ)) ≤ (cfg.height : ℚ) :=
    mul_le_of_le_one_right (Nat.cast_nonneg _) he1
  have hr0 : (0 : ℚ) ≤ (cfg.height : ℚ) * (1 - easedCode ((t : ℚ) / (T : ℚ))) :=
    mul_nonneg (Nat.cast_nonneg _) (by linarith)
  have hr1 : (cfg.height : ℚ) * (1 - easedCode ((t : ℚ) / (T : ℚ))) ≤ (cfg.height : ℚ) :=
    mul_le_of_le_one_right (Nat.cast_nonneg _) (by linarith)
  have hco0 : 0 ≤ pyInt ((cfg.height : ℚ) * easedCode ((t : ℚ) / (T : ℚ))) := pyInt_nonneg hq0
  have hcoH : pyInt ((cfg.height : ℚ) * easedCode ((t : ℚ) / (T : ℚ))) ≤ (cfg.height : Int) :=
    pyInt_le_cast hq0 hq1
  have hno0 : 0 ≤ pyInt ((cfg.height : ℚ) * (1 - easedCode ((t : ℚ) / (T : ℚ)))) :=
    pyInt_nonneg hr0
  have hnoH : pyInt ((cfg.height : ℚ) * (1 - easedCode ((t : ℚ) / (T : ℚ)))) ≤ (cfg.height : Int) :=
    pyInt_le_cast hr0 hr1
  unfold transitionFrame
  dsimp only
  generalize hC : pyInt ((cfg.height : ℚ) * easedCode ((t : ℚ) / (T : ℚ))) = co
    at hco0 hcoH ⊢
  generalize hN : pyInt ((cfg.height : ℚ) * (1 - easedCode ((t : ℚ) / (T : ℚ)))) = no
    at hno0 hnoH ⊢
  refine ⟨?_, ?_, ?_⟩
  · split_ifs <;> rfl
  · split_ifs <;> rfl
  · intro x y hx0 hx hy0 hy
    by_cases h2 : no < (cfg.height : Int)
    · rw [if_pos h2]
      by_cases hyn : no ≤ y
      · have hreg : 0 ≤ x ∧ x < 0 + ((convRGB nf).width : Int) ∧ no ≤ y ∧
            y < no + ((convRGB nf).height : Int) := by
          refine ⟨hx0, ?_, hyn, ?_⟩ <;>
            simp only [convRGB_width, convRGB_height, hnw, hnh] <;> omega
        rw [if_pos hyn]
        simp only [paste, hreg, if_true, and_true, true_and, sub_zero, if_pos hreg]
      · have hreg : ¬ (0 ≤ x ∧ x < 0 + ((convRGB nf).width : Int) ∧ no ≤ y ∧
            y < no + ((convRGB nf).height : Int)) := by
          intro hcon
          exact hyn hcon.2.2.1
        rw [if_neg hyn]
        simp only [paste, if_neg hreg]
        by_cases h1 : -co > -(cfg.height : Int)
        · rw [if_pos h1]
          by_cases hyc : y < (cfg.height : Int) - co
          · have hreg2 : 0 ≤ x ∧ x < 0 + ((convRGB fb).width : Int) ∧ -co ≤ y ∧
                y < -co + ((convRGB fb).height : Int) := by
              refine ⟨hx0, ?_, by omega, ?_⟩ <;>
                simp only [convRGB_width, convRGB_height, hfw, hfh] <;> omega
            rw [if_pos hyc]
            simp only [paste, if_pos hreg2, sub_zero, sub_neg_eq_add]
          · have hreg2 : ¬ (0 ≤ x ∧ x < 0 + ((convRGB fb).width : Int) ∧ -co ≤ y ∧
                y < -co + ((convRGB fb).height : Int)) := by
              intro hcon
              refine hyc ?_
              have := hcon.2.2.2
              simp only [convRGB_height, hfh] at this
              omega
            rw [if_neg hyc]
            simp only [paste, if_neg hreg2, mkImg]
        · rw [if_neg h1]
          have hyc : ¬ y < (cfg.height : Int) - co := by omega
          rw [if_neg hyc]
          simp only [mkImg]
    · rw [if_neg h2]
      have hyn : ¬ no ≤ y := by omega
      rw [if_neg hyn]
      by_cases h1 : -co > -(cfg.height : Int)
      · rw [if_pos h1]
        by_cases hyc : y < (cfg.height : Int) - co
        · have hreg2 : 0 ≤ x ∧ x < 0 + ((convRGB fb).width : Int) ∧ -co ≤ y ∧
              y < -co + ((convRGB fb).height : Int) := by
            refine ⟨hx0, ?_, by omega, ?_⟩ <;>
              simp only [convRGB_width, convRGB_height, hfw, hfh] <;> omega
          rw [if_pos hyc]
          simp only [paste, if_pos hreg2, sub_zero, sub_neg_eq_add]
        · have hreg2 : ¬ (0 ≤ x ∧ x < 0 + ((convRGB fb).width : Int) ∧ -co ≤ y ∧
              y < -co + ((convRGB fb).height : Int)) := by
            intro hcon
            refine hyc ?_
            have := hcon.2.2.2
            simp only [convRGB_height, hfh] at this
            omega
          rw [if_neg hyc]
          simp only [paste, if_neg hreg2, mkImg]
      · rw [if_neg h1]
        have hyc : ¬ y < (cfg.height : Int) - co := by omega
        rw [if_neg hyc]
        simp only [mkImg]

/-- Witness for C3 (amended) at `t = 1` of `T = 4` on concrete 1×8 base
frames. -/
theorem transition_frame_scroll_semantics_witness :
    (transitionFrame cfg8 fbA nfB 1 4).width = cfg8.width ∧
    (transitionFrame cfg8 fbA nfB 1 4).height = cfg8.height ∧
    ∀ x y : Int, 0 ≤ x → x < (cfg8.width : Int) → 0 ≤ y → y < (cfg8.height : Int) →
      (transitionFrame cfg8 fbA nfB 1 4).pix x y =
        (if pyInt ((cfg8.height : ℚ) * (1 - easedCode ((1 : ℚ) / (4 : ℚ)))) ≤ y then
          (convRGB nfB).pix x (y - pyInt ((cfg8.height : ℚ) * (1 - easedCode ((1 : ℚ) / (4 : ℚ)))))
        else if y < (cfg8.height : Int) - pyInt ((cfg8.height : ℚ) * easedCode ((1 : ℚ) / (4 : ℚ))) then
          (convRGB fbA).pix x (y + pyInt ((cfg8.height : ℚ) * easedCode ((1 : ℚ) / (4 : ℚ))))
        else (0, 0, 0, 255)) := by
  have h := transition_frame_scroll_semantics cfg8 fbA nfB 1 4 (by decide) rfl rfl rfl rfl
  exact_mod_cast h

/-- Counterexample to C3 as stated: with the spec's easing `2p²` the
frame at `t = 1` of `T = 4` would still show the "from" panel at row 5,
but the code's easing `1/2 − 1/2(1−2p)²` has already scrolled the "to"
panel into that row — the two easing formulas produce different pixels. -/
theorem transition_easing_counterexample :
    (transitionFrame cfg8 fbA nfB 1 4).pix 0 5 = (2, 2, 2, 255) ∧
    (specTransitionFrame cfg8 fbA nfB 1 4).pix 0 5 = (1, 1, 1, 255) ∧
    ((2, 2, 2, 255) : Pixel) ≠ (1, 1, 1, 255) := by
  refine ⟨?_, ?_, by decide⟩ <;>
    norm_num [transitionFrame, specTransitionFrame, easedCode, easedSpec, pyInt,
      paste, mkImg, convRGB, fbA, nfB, cfg8]

/-- C8: on every exit path of `generate_video` (success or failure) the
scoped temporary workspace is torn down — no file surviving the run lies
under the workspace — and on success the returned path names a file that
exists after cleanup: the artifact was written to, or copied to, a
destination outside the workspace (the caller-specified path, or the
fresh `NamedTemporaryFile` name when the default `output.mp4` lived
inside the workspace) before the `finally` teardown. The hypothesis
states that the `NamedTemporaryFile` name is not inside this build's
`mkdtemp` workspace, which the tempfile module guarantees by
freshness. -/
theorem workspace_teardown_and_artifact (env : Env) (names : Names) (cfg : VideoConfig)
    (panels : List Panel) (out : Option String)
    (hfresh : pyStartsWith names.finalName names.tempDir = false) :
    (∀ f ∈ (generateVideo env names cfg panels out).1.files,
        pyStartsWith f names.tempDir = false) ∧
    (∀ pth, okPathOf (generateVideo env names cfg panels out).2 = some pth →
        pth ∈ (generateVideo env names cfg panels out).1.files) := by
  unfold generateVideo
  cases hb : buildFrames env cfg panels with
  | error e =>
    exact ⟨fun f hf => by simp at hf, fun pth h => by simp [okPathOf] at h⟩
  | ok frames =>
    dsimp only
    by_cases h0 : frames.length = 0
    · rw [if_pos h0]
      exact ⟨fun f hf => by simp at hf, fun pth h => by simp [okPathOf] at h⟩
    · rw [if_neg h0]
      cases hm : env.ffmpegOk with
      | false =>
        simp only [Bool.false_eq_true, if_false]
        exact ⟨fun f hf => by simp at hf, fun pth h => by simp [okPathOf] at h⟩
      | true =>
        simp only [if_true]
        constructor
        · intro f hf
          rw [List.mem_filter] at hf
          simpa using hf.2
        · intro pth h
          simp only [okPathOf, Option.some_inj] at h
          subst h
          rw [List.mem_filter]
          by_cases hpre :
              pyStartsWith (out.getD (names.tempDir ++ "/output.mp4")) names.tempDir = true
          · rw [if_pos hpre]
            refine ⟨List.mem_append_right _ ?_, by simp [hfresh]⟩
            simp
          · rw [if_neg hpre]
            rw [Bool.not_eq_true] at hpre
            refine ⟨List.mem_append_right _ ?_, by simp [hpre]⟩
            simp

/-- Witness for C8 on a concrete successful build. -/
theorem workspace_teardown_and_artifact_witness :
    (∀ f ∈ (generateVideo envGood namesW cfgW [panelW] none).1.files,
        pyStartsWith f namesW.tempDir = false) ∧
    (∀ pth, okPathOf (generateVideo envGood namesW cfgW [panelW] none).2 = some pth →
        pth ∈ (generateVideo envGood namesW cfgW [panelW] none).1.files) :=
  workspace_teardown_and_artifact envGood namesW cfgW [panelW] none (by decide)

/-- C9: build determinism. Two runs with identical panels, VideoConfig
and environment (same network results, cache contents, bubble asset and
rasterization behavior — the exclusion the claim grants) produce the same
frame sequence bit for bit and the same error, even when the
temporary-workspace and artifact names differ between the runs; and a
repeated `render_bubble` call through the service's lazy font cache
returns byte-identical output to the first call. -/
theorem build_determinism (env : Env) (n1 n2 : Names) (cfg : VideoConfig)
    (panels : List Panel) (out : Option String) :
    framesOf (generateVideo env n1 cfg panels out).2 =
      framesOf (generateVideo env n2 cfg panels out).2 ∧
    errOf (generateVideo env n1 cfg panels out).2 =
      errOf (generateVideo env n2 cfg panels out).2 ∧
    ∀ (img : Img) (text : String) (x y : ℚ) (wp hp : Option ℚ),
      (renderBubbleCall env ((renderBubbleCall env none cfg img text x y wp hp).2)
          cfg img text x y wp hp).1 =
        (renderBubbleCall env none cfg img text x y wp hp).1 := by
  refine ⟨?_, ?_, fun img text x y wp hp => rfl⟩ <;>
  · unfold generateVideo
    cases hb : buildFrames env cfg panels with
    | error e => rfl
    | ok frames =>
      dsimp only
      by_cases h0 : frames.length = 0
      · rw [if_pos h0, if_pos h0]
      · rw [if_neg h0, if_neg h0]
        cases hm : env.ffmpegOk with
        | false => simp only [Bool.false_eq_true, if_false]
        | true => simp only [if_true]; rfl
